import Mathlib

set_option maxRecDepth 8000

/-!
Verification of the uptime-monitoring backend against its specification.

This file gives a shallow embedding, in Lean, of the claim-relevant parts of
the repository:

* `check_rate_limit` — the sliding-window rate limiter of
  `app/middleware/auth.py` (per-key timestamp list; keys are independent in
  the source, so we model the one list the call touches);
* `send_to_all_devices` — the notification fan-out of
  `app/services/notification_service.py`, with the external FCM transport
  abstracted as a per-device outcome function (`app` spec section 6 treats the
  transport as an external sender returning ok/error per token);
* `domain_down` / `domain_up` — the status transition tracker of
  `app/routers/events.py`, over an explicit record-store state (`DB`);
* `get_domain_analytics` — the analytics aggregation of
  `app/services/analytics_service.py`, taking as input the list of
  incident records returned by the persistence range query (ordered by
  start ascending, as the query layer guarantees).

Timestamps are modelled as integer seconds (`Int`); `datetime` subtraction,
`.total_seconds()` and `time.time()` all become integer arithmetic.  Python's
`int(x)` on a quotient truncates toward zero, which is `Int.tdiv`; Python's
floor-division `//` and `%` on ints are `Int.ediv` / `Int.emod`.  Calendar
days are day numbers (`timestamp / 86400` with floor division).  Display-only
float fields of the analytics output (`uptime_percentage`,
`uptime_minutes`/`downtime_minutes` roundings) and timestamp string
formatting are omitted from the embedding; no claim refers to them.
-/

/-! ## Rate limiter (`app/middleware/auth.py`, `check_rate_limit`) -/

/-- Capacity constant `RATE_LIMIT_REQUESTS = 400` in `app/middleware/auth.py`. -/
def RATE_LIMIT_REQUESTS : Nat := 400

/-- Window constant `RATE_LIMIT_WINDOW = 60` seconds in `app/middleware/auth.py`. -/
def RATE_LIMIT_WINDOW : Int := 60

/-- Embedding of `check_rate_limit(domain_id)` from `app/middleware/auth.py`.

The source keeps `rate_limit_storage`, a `defaultdict(list)` keyed by
`domain_id`, and a call reads and writes only the list stored under its own
key (a missing key reads as `[]`).  We therefore model the per-key list
explicitly: `stored` is the list held for the key before the call and the
first component of the result is the list held after it.  `now` is the
`time.time()` value of the call.  Returns (new stored list, is_allowed,
requests_remaining). -/
def check_rate_limit (now : Int) (stored : List Int) : List Int × Bool × Int :=
  let window_start := now - RATE_LIMIT_WINDOW
  let pruned := stored.filter (fun ts => window_start < ts)
  let current_requests := pruned.length
  if RATE_LIMIT_REQUESTS ≤ current_requests then
    (pruned, false, 0)
  else
    (pruned ++ [now], true, (RATE_LIMIT_REQUESTS : Int) - current_requests - 1)

/-- A sequence of `check_rate_limit` calls for one key, threading the stored
list; returns the final stored list and the `(allowed, remaining)` result of
each call in order. -/
def run_calls (times : List Int) (stored : List Int) : List Int × List (Bool × Int) :=
  match times with
  | [] => (stored, [])
  | t :: rest =>
    let r := check_rate_limit t stored
    let rec_result := run_calls rest r.1
    (rec_result.1, (r.2.1, r.2.2) :: rec_result.2)

theorem check_rate_limit_reject (now : Int) (stored : List Int)
    (h : RATE_LIMIT_REQUESTS ≤ (stored.filter (fun ts => now - RATE_LIMIT_WINDOW < ts)).length) :
    check_rate_limit now stored = (stored.filter (fun ts => now - RATE_LIMIT_WINDOW < ts), false, 0) := by
  simp only [check_rate_limit, if_pos h]

theorem check_rate_limit_allow (now : Int) (stored : List Int)
    (h : (stored.filter (fun ts => now - RATE_LIMIT_WINDOW < ts)).length < RATE_LIMIT_REQUESTS) :
    check_rate_limit now stored =
      (stored.filter (fun ts => now - RATE_LIMIT_WINDOW < ts) ++ [now], true,
       (RATE_LIMIT_REQUESTS : Int) - (stored.filter (fun ts => now - RATE_LIMIT_WINDOW < ts)).length - 1) := by
  simp only [check_rate_limit, if_neg (Nat.not_le.mpr h)]

/-- One call keeps the stored list within capacity. -/
theorem check_rate_limit_length_le (now : Int) (stored : List Int)
    (h : stored.length ≤ RATE_LIMIT_REQUESTS) :
    (check_rate_limit now stored).1.length ≤ RATE_LIMIT_REQUESTS := by
  have hp : (stored.filter (fun ts => now - RATE_LIMIT_WINDOW < ts)).length ≤ stored.length :=
    List.length_filter_le _ _
  by_cases hc : RATE_LIMIT_REQUESTS ≤ (stored.filter (fun ts => now - RATE_LIMIT_WINDOW < ts)).length
  · rw [check_rate_limit_reject now stored hc]
    exact le_trans hp h
  · rw [check_rate_limit_allow now stored (Nat.not_le.mp hc)]
    simp only [List.length_append, List.length_cons, List.length_nil]
    omega

theorem run_calls_length_le (times : List Int) (stored : List Int)
    (h : stored.length ≤ RATE_LIMIT_REQUESTS) :
    (run_calls times stored).1.length ≤ RATE_LIMIT_REQUESTS := by
  induction times generalizing stored with
  | nil => exact h
  | cons t rest ih =>
    exact ih (check_rate_limit t stored).1 (check_rate_limit_length_le t stored h)

theorem filter_keep_replicate (p : Int → Bool) (t : Int) (hp : p t = true) (m : Nat) :
    (List.replicate m t).filter p = List.replicate m t := by
  induction m with
  | zero => rfl
  | succ k ih => simp [List.replicate_succ, List.filter_cons, hp, ih]

theorem check_rate_limit_replicate_allow (t : Int) (m : Nat) (hm : m < RATE_LIMIT_REQUESTS) :
    check_rate_limit t (List.replicate m t) =
      (List.replicate (m + 1) t, true, (RATE_LIMIT_REQUESTS : Int) - m - 1) := by
  have hfil : (List.replicate m t).filter (fun ts => t - RATE_LIMIT_WINDOW < ts) = List.replicate m t :=
    filter_keep_replicate _ t (by simp [RATE_LIMIT_WINDOW]) m
  rw [show check_rate_limit t (List.replicate m t) =
        ((List.replicate m t).filter (fun ts => t - RATE_LIMIT_WINDOW < ts) ++ [t], true,
         (RATE_LIMIT_REQUESTS : Int) - ((List.replicate m t).filter (fun ts => t - RATE_LIMIT_WINDOW < ts)).length - 1)
      from check_rate_limit_allow t _ (by rw [hfil]; simpa using hm)]
  rw [hfil]
  simp [List.replicate_succ']

theorem run_calls_replicate (t : Int) (k m : Nat) (h : m + k ≤ RATE_LIMIT_REQUESTS) :
    (run_calls (List.replicate k t) (List.replicate m t)).1 = List.replicate (m + k) t ∧
    (run_calls (List.replicate k t) (List.replicate m t)).2.map Prod.fst = List.replicate k true := by
  induction k generalizing m with
  | zero => simp [run_calls]
  | succ n ih =>
    have hm : m < RATE_LIMIT_REQUESTS := by omega
    have hstep := check_rate_limit_replicate_allow t m hm
    have ihm := ih (m + 1) (by omega)
    constructor
    · show (run_calls (t :: List.replicate n t) (List.replicate m t)).1 = _
      simp only [run_calls, hstep]
      rw [ihm.1]
      congr 1
      omega
    · show (run_calls (t :: List.replicate n t) (List.replicate m t)).2.map Prod.fst = _
      simp only [run_calls, hstep, List.map_cons]
      rw [ihm.2]
      rfl

theorem filter_drop_replicate (p : Int → Bool) (t : Int) (hp : p t = false) (m : Nat) :
    (List.replicate m t).filter p = [] := by
  induction m with
  | zero => rfl
  | succ k ih => simp [List.replicate_succ, List.filter_cons, hp, ih]

/-- C5: `admit(key, now)` first discards stored timestamps outside the
trailing 60 s window; if the surviving count is at least 400 it rejects with
remaining 0; otherwise it appends `now` and allows with
remaining = 400 − count − 1.  Consequently 400 admissions at one instant all
succeed, the 401st attempt within the window is rejected with remaining 0,
and an attempt after the window has elapsed succeeds again. -/
theorem C5_rate_limiter_contract :
    (∀ (now : Int) (stored : List Int),
       (RATE_LIMIT_REQUESTS ≤ (stored.filter (fun ts => now - RATE_LIMIT_WINDOW < ts)).length →
          check_rate_limit now stored =
            (stored.filter (fun ts => now - RATE_LIMIT_WINDOW < ts), false, 0)) ∧
       ((stored.filter (fun ts => now - RATE_LIMIT_WINDOW < ts)).length < RATE_LIMIT_REQUESTS →
          check_rate_limit now stored =
            (stored.filter (fun ts => now - RATE_LIMIT_WINDOW < ts) ++ [now], true,
             (RATE_LIMIT_REQUESTS : Int) -
               (stored.filter (fun ts => now - RATE_LIMIT_WINDOW < ts)).length - 1)))
    ∧ (∀ t : Int,
       (run_calls (List.replicate 400 t) []).1 = List.replicate 400 t ∧
       (run_calls (List.replicate 400 t) []).2.map Prod.fst = List.replicate 400 true ∧
       (check_rate_limit t (List.replicate 400 t)).2 = (false, 0) ∧
       (check_rate_limit (t + RATE_LIMIT_WINDOW + 1) (List.replicate 400 t)).2 = (true, 399)) := by
  constructor
  · intro now stored
    exact ⟨check_rate_limit_reject now stored, check_rate_limit_allow now stored⟩
  · intro t
    have hkeep : (List.replicate 400 t).filter (fun ts => t - RATE_LIMIT_WINDOW < ts) =
        List.replicate 400 t :=
      filter_keep_replicate _ t (by simp [RATE_LIMIT_WINDOW]) 400
    have hdrop : (List.replicate 400 t).filter
        (fun ts => t + RATE_LIMIT_WINDOW + 1 - RATE_LIMIT_WINDOW < ts) = [] :=
      filter_drop_replicate _ t (by simp [RATE_LIMIT_WINDOW]; omega) 400
    have hrun := run_calls_replicate t 400 0 (by decide)
    rw [Nat.zero_add] at hrun
    refine ⟨hrun.1, hrun.2, ?_, ?_⟩
    · rw [check_rate_limit_reject t (List.replicate 400 t)
        (by rw [hkeep, List.length_replicate]; decide)]
    · rw [check_rate_limit_allow (t + RATE_LIMIT_WINDOW + 1) (List.replicate 400 t)
        (by rw [hdrop]; decide)]
      rw [hdrop]
      rfl

theorem C5_rate_limiter_contract_witness :
    check_rate_limit 1000 [950, 990] = ([950, 990, 1000], true, 397) := by
  have h := (C5_rate_limiter_contract.1 1000 [950, 990]).2 (by decide)
  exact h.trans (by decide)

/-- C10: a rejected admission check never consumes capacity — when
`check_rate_limit` returns not-allowed, the stored per-key list is only
pruned (the current timestamp is not appended); and starting from the empty
per-key list, after any sequence of calls the stored list length never
exceeds the capacity of 400. -/
theorem C10_reject_consumes_nothing :
    (∀ (now : Int) (stored : List Int), (check_rate_limit now stored).2.1 = false →
       (check_rate_limit now stored).1 = stored.filter (fun ts => now - RATE_LIMIT_WINDOW < ts)) ∧
    (∀ times : List Int, (run_calls times []).1.length ≤ RATE_LIMIT_REQUESTS) := by
  constructor
  · intro now stored h
    by_cases hc : RATE_LIMIT_REQUESTS ≤ (stored.filter (fun ts => now - RATE_LIMIT_WINDOW < ts)).length
    · rw [check_rate_limit_reject now stored hc]
    · rw [check_rate_limit_allow now stored (Nat.not_le.mp hc)] at h
      simp at h
  · intro times
    exact run_calls_length_le times [] (by simp)

theorem C10_reject_consumes_nothing_witness :
    (check_rate_limit 0 (List.replicate 400 (0 : Int))).2.1 = false ∧
    (check_rate_limit 0 (List.replicate 400 (0 : Int))).1 = List.replicate 400 (0 : Int) := by
  have hrej : (check_rate_limit 0 (List.replicate 400 (0 : Int))).2.1 = false := by decide
  refine ⟨hrej, ?_⟩
  rw [C10_reject_consumes_nothing.1 0 _ hrej]
  exact filter_keep_replicate _ 0 (by simp [RATE_LIMIT_WINDOW]) 400

/-! ## Notification fan-out (`app/services/notification_service.py`) -/

/-- A registered device token row (`app/models/device_token.py`), as used by
`send_to_all_devices`. -/
structure Device where
  id : Nat
  token : String
  platform : String
deriving DecidableEq

/-- Outcome of one delivery attempt for one device.  `send_fcm` either
returns `{"success": True, "message_id": ...}`, returns an error dict
(`{"error": ...}`, including the Firebase-not-initialized path, which
`send_to_all_devices` tests with `result.get("error")`), or raises — the
`except` arm of the per-device loop.  The FCM transport is external, so the
per-device outcome is a parameter of the embedding. -/
inductive DeliveryOutcome
  | sent (message_id : String)
  | fcmError (error : String)
  | raised (exn : String)
deriving DecidableEq

/-- One entry of the `details` list built by `send_to_all_devices`: token
truncated to 20 characters plus an ellipsis, the device platform, and the
delivery status string. -/
structure DeliveryDetail where
  token : String
  platform : String
  status : String
deriving DecidableEq

/-- The aggregate dict returned by `send_to_all_devices`. -/
structure FanoutResult where
  success : Nat
  failed : Nat
  total : Nat
  details : List DeliveryDetail
deriving DecidableEq

/-- The body of the per-device loop in `send_to_all_devices`: try one
delivery, bump `success` or `failed`, append a detail entry.  Errors reported
by `send_fcm` and exceptions raised during the attempt are both recorded as
failures without aborting the loop. -/
def attempt_device (deliver : Device → DeliveryOutcome) (acc : FanoutResult)
    (device : Device) : FanoutResult :=
  match deliver device with
  | .sent _ =>
      { acc with success := acc.success + 1,
                 details := acc.details ++
                   [⟨device.token.take 20 ++ "...", device.platform, "success"⟩] }
  | .fcmError _ =>
      { acc with failed := acc.failed + 1,
                 details := acc.details ++
                   [⟨device.token.take 20 ++ "...", device.platform, "failed"⟩] }
  | .raised _ =>
      { acc with failed := acc.failed + 1,
                 details := acc.details ++
                   [⟨device.token.take 20 ++ "...", device.platform, "failed"⟩] }

/-- Embedding of `send_to_all_devices(devices, ...)` from
`app/services/notification_service.py`: an empty device list short-circuits
to the zero dict; otherwise the result starts from
`{"success": 0, "failed": 0, "total": len(devices), "details": []}` and every
device is attempted in order. -/
def send_to_all_devices (deliver : Device → DeliveryOutcome)
    (devices : List Device) : FanoutResult :=
  if devices.isEmpty then ⟨0, 0, 0, []⟩
  else devices.foldl (attempt_device deliver) ⟨0, 0, devices.length, []⟩

theorem attempt_device_counts (deliver : Device → DeliveryOutcome)
    (acc : FanoutResult) (device : Device) :
    (attempt_device deliver acc device).success + (attempt_device deliver acc device).failed
        = acc.success + acc.failed + 1 ∧
    (attempt_device deliver acc device).total = acc.total := by
  unfold attempt_device
  rcases deliver device with m | e | e <;> simp <;> omega

theorem fanout_fold_counts (deliver : Device → DeliveryOutcome)
    (devices : List Device) (acc : FanoutResult) :
    (devices.foldl (attempt_device deliver) acc).success
        + (devices.foldl (attempt_device deliver) acc).failed
      = acc.success + acc.failed + devices.length ∧
    (devices.foldl (attempt_device deliver) acc).total = acc.total := by
  induction devices generalizing acc with
  | nil => simp
  | cons d rest ih =>
    have hstep := attempt_device_counts deliver acc d
    have hrest := ih (attempt_device deliver acc d)
    refine ⟨?_, ?_⟩
    · rw [List.foldl_cons, hrest.1, hstep.1]
      simp [List.length_cons]
      omega
    · rw [List.foldl_cons, hrest.2, hstep.2]

/-- C8: the fan-out engine attempts each receiver independently, catching
per-receiver errors, and its counts satisfy success + failed = total =
number of receivers; an empty receiver list short-circuits to the zero
result without any delivery attempt; and 3 receivers with 1 delivery error
yield total 3, success 2, failed 1. -/
theorem C8_fanout_partial_failure :
    (∀ (deliver : Device → DeliveryOutcome) (devices : List Device),
        (send_to_all_devices deliver devices).success
            + (send_to_all_devices deliver devices).failed
          = (send_to_all_devices deliver devices).total ∧
        (send_to_all_devices deliver devices).total = devices.length) ∧
    (∀ deliver : Device → DeliveryOutcome,
        send_to_all_devices deliver [] = ⟨0, 0, 0, []⟩) ∧
    (let devices := [⟨1, "token-one", "android"⟩, ⟨2, "token-two", "android"⟩,
                     ⟨3, "token-three", "ios"⟩]
     let deliver : Device → DeliveryOutcome :=
       fun d => if d.id = 2 then .raised "network error" else .sent "mid"
     (send_to_all_devices deliver devices).total = 3 ∧
     (send_to_all_devices deliver devices).success = 2 ∧
     (send_to_all_devices deliver devices).failed = 1) := by
  refine ⟨?_, ?_, ?_⟩
  · intro deliver devices
    cases devices with
    | nil => simp [send_to_all_devices]
    | cons d rest =>
      have h := fanout_fold_counts deliver (d :: rest) ⟨0, 0, (d :: rest).length, []⟩
      have hsend : send_to_all_devices deliver (d :: rest)
          = (d :: rest).foldl (attempt_device deliver) ⟨0, 0, (d :: rest).length, []⟩ := rfl
      refine ⟨?_, ?_⟩
      · rw [hsend, h.1, h.2]
        simp
      · rw [hsend]
        exact h.2
  · intro deliver
    rfl
  · exact ⟨rfl, rfl, rfl⟩

/-! ## Status transition tracker (`app/routers/events.py`) -/

/-- A `Domain` row (`app/models/domain.py`), restricted to the columns the
event handlers read.  `is_active` is the current reachability status
(`isUp`). -/
structure DomainRec where
  id : Int
  name : String
  label : Option String
  custom_sound_down : Option String
  custom_sound_up : Option String
  is_active : Bool
deriving DecidableEq

/-- A `DowntimeLog` row (`app/models/downtime_log.py`): one incident window.
`end_time` and `duration_seconds` are nullable and set only on close. -/
structure LogRec where
  id : Nat
  domain_id : Int
  start_time : Int
  end_time : Option Int
  duration_seconds : Option Int
  resolved : Bool
deriving DecidableEq

/-- The transactional record store the handlers read and mutate: `Domain`
rows, `DowntimeLog` rows, registered `DeviceToken` rows, plus the next
primary key the store would assign to an inserted log row. -/
structure DB where
  domains : List DomainRec
  logs : List LogRec
  devices : List Device
  next_log_id : Nat
deriving DecidableEq

/-- Python truthiness coercion `value if value else default` for an optional
string: `None` and `""` are falsy. -/
def py_str_or_default (s : Option String) (d : String) : String :=
  match s with
  | some v => if v = "" then d else v
  | none => d

/-- Helper for `normalize_sound_name`: the index where `os.path.splitext`
splits a path-free name, i.e. the last dot that has a non-dot character
somewhere before it (leading dots never start an extension), or `none` when
no extension is present.  `seen_non_dot` records whether a non-dot character
occurred before position `i`. -/
def splitext_dot_index : List Char → Bool → Option Nat → Nat → Option Nat
  | [], _, best, _ => best
  | c :: rest, seen_non_dot, best, i =>
    if c = '.' then
      splitext_dot_index rest seen_non_dot (if seen_non_dot then some i else best) (i + 1)
    else
      splitext_dot_index rest true best (i + 1)

/-- Embedding of `normalize_sound_name` from `app/utils/sound_utils.py`:
falsy input maps to `"default_down"`, otherwise the `os.path.splitext` root
(sound names carry no path separator), with an empty root also defaulting. -/
def normalize_sound_name (sound_name : Option String) : String :=
  match sound_name with
  | none => "default_down"
  | some s =>
    if s = "" then "default_down"
    else
      let root :=
        match splitext_dot_index s.toList false none 0 with
        | none => s
        | some i => String.mk (s.toList.take i)
      if root = "" then "default_down" else root

/-- The duration-formatting block of `domain_up` (`app/routers/events.py`):
below 60 s Python renders `f"{duration_seconds} seconds"`; below 3600 s,
minutes and seconds; otherwise hours and minutes.  Python's `//` and `%` on
ints are `Int.ediv` / `Int.emod`. -/
def format_duration (d : Int) : String :=
  if d < 60 then toString d ++ " seconds"
  else if d < 3600 then
    toString (Int.ediv d 60) ++ "m " ++ toString (Int.emod d 60) ++ "s"
  else
    toString (Int.ediv d 3600) ++ "h " ++ toString (Int.ediv (Int.emod d 3600) 60) ++ "m"

/-- The notification payload the event handlers pass to
`send_to_all_devices` (title, body, sound, channel, and the claim-relevant
parts of the `data` dict). -/
structure NotificationCall where
  title : String
  body : String
  sound : String
  channel_id : String
  data_type : String
  duration_formatted : Option String
deriving DecidableEq

/-- Result of the `/events/down` handler: either the structured JSON reply
(message, notification results, `status_changed`, and the fan-out call made,
if any) or an uncaught Python exception escaping the handler. -/
inductive DownOutcome
  | ok (message : String) (notifications : FanoutResult) (status_changed : Bool)
      (sent : Option NotificationCall)
  | crash (exn : String)
deriving DecidableEq

/-- Embedding of `domain_down` from `app/routers/events.py`.  Returns the
record store after the handler ran (the commit happens before the
notification block, so a later exception leaves the committed rows in place)
together with the handler's outcome. -/
def domain_down (deliver : Device → DeliveryOutcome) (payload_domain_id : Int)
    (payload_detected_at : Int) (db : DB) : DB × DownOutcome :=
  let domain := db.domains.find? fun d => d.id == payload_domain_id
  let domain_name :=
    match domain with
    | some d => d.name
    | none => "Domain #" ++ toString payload_domain_id
  let domain_label :=
    match domain with
    | some d => py_str_or_default d.label (match domain with
        | some d' => d'.name
        | none => "Domain #" ++ toString payload_domain_id)
    | none => "Domain #" ++ toString payload_domain_id
  let was_up :=
    match domain with
    | some d => d.is_active
    | none => true
  if was_up then
    let log : LogRec :=
      ⟨db.next_log_id, payload_domain_id, payload_detected_at, none, none, false⟩
    let domains' := db.domains.map fun d =>
      if d.id == payload_domain_id then { d with is_active := false } else d
    let db' : DB := { db with logs := db.logs ++ [log], domains := domains',
                              next_log_id := db.next_log_id + 1 }
    match domain with
    | none =>
      (db', .crash "AttributeError: NoneType object has no attribute custom_sound_down")
    | some d =>
      let sound_name := normalize_sound_name (some (py_str_or_default d.custom_sound_down "default_down"))
      let call : NotificationCall :=
        { title := "🔴 " ++ domain_name ++ " DOWN",
          body := domain_label ++ " (" ++ domain_name ++ ") is currently unreachable",
          sound := sound_name, channel_id := "downtime_v3",
          data_type := "down", duration_formatted := none }
      let results := send_to_all_devices deliver db'.devices
      (db', .ok "Down recorded" results true (some call))
  else
    (db, .ok "Domain already down, no action taken" ⟨0, 0, 0, []⟩ false none)

/-- The structured JSON reply of the `/events/up` handler. -/
structure UpResponse where
  message : String
  duration : Int
  notifications : FanoutResult
  status_changed : Bool
  sent : Option NotificationCall
deriving DecidableEq

/-- Result of the `/events/up` handler: the structured reply, an
`HTTPException` (FastAPI turns it into a structured status/detail JSON
response), or an uncaught Python exception. -/
inductive UpOutcome
  | ok (resp : UpResponse)
  | httpError (status_code : Nat) (detail : String)
  | crash (exn : String)
deriving DecidableEq

/-- Embedding of `domain_up` from `app/routers/events.py`.  Returns the
record store after the handler ran together with the handler's outcome. -/
def domain_up (deliver : Device → DeliveryOutcome) (payload_domain_id : Int)
    (payload_detected_at : Int) (db : DB) : DB × UpOutcome :=
  let domain := db.domains.find? fun d => d.id == payload_domain_id
  let domain_name :=
    match domain with
    | some d => d.name
    | none => "Domain #" ++ toString payload_domain_id
  let domain_label :=
    match domain with
    | some d => py_str_or_default d.label (match domain with
        | some d' => d'.name
        | none => "Domain #" ++ toString payload_domain_id)
    | none => "Domain #" ++ toString payload_domain_id
  let was_down :=
    match domain with
    | some d => !d.is_active
    | none => false
  match db.logs.find? fun l => l.domain_id == payload_domain_id && !l.resolved with
  | none =>
    let db' :=
      match domain with
      | some d =>
        if !d.is_active then
          { db with domains := db.domains.map fun d' =>
              if d'.id == payload_domain_id then { d' with is_active := true } else d' }
        else db
      | none => db
    (db', .httpError 404 "No active downtime log")
  | some log =>
    let duration := payload_detected_at - log.start_time
    let logs' := db.logs.map fun l =>
      if l.id == log.id then
        { l with end_time := some payload_detected_at,
                 duration_seconds := some (payload_detected_at - l.start_time),
                 resolved := true }
      else l
    let domains' := db.domains.map fun d =>
      if d.id == payload_domain_id then { d with is_active := true } else d
    let db' : DB := { db with logs := logs', domains := domains' }
    if was_down && decide (0 < duration) then
      match domain with
      | none =>
        (db', .crash "AttributeError: NoneType object has no attribute custom_sound_up")
      | some d =>
        let duration_text := format_duration duration
        let sound_name := normalize_sound_name (some (py_str_or_default d.custom_sound_up "default_up"))
        let call : NotificationCall :=
          { title := "✅ " ++ domain_name ++ " RECOVERED",
            body := domain_label ++ " (" ++ domain_name ++ ") is back online after " ++ duration_text,
            sound := sound_name, channel_id := "uptime_v3",
            data_type := "up", duration_formatted := some duration_text }
        let results := send_to_all_devices deliver db'.devices
        (db', .ok ⟨"Up updated", duration, results, was_down, some call⟩)
    else
      (db', .ok ⟨"Up updated", duration, ⟨0, 0, 0, []⟩, was_down, none⟩)

/-- Record store with no `Domain` rows at all, used to evaluate the handlers
on an unknown domain id. -/
def empty_db : DB := ⟨[], [], [], 1⟩

/-- C1: evaluation of the code at the failing input.  A DOWN event whose
`domain_id` matches no `Domain` row reaches
`domain.custom_sound_down` with `domain = None`
(`app/routers/events.py`, notification block of `domain_down`) and the
handler escapes with an uncaught `AttributeError` — not a structured result,
and not a persistence-layer failure. -/
theorem C1_unknown_domain_down_crashes :
    (domain_down (fun _ => DeliveryOutcome.sent "mid") 999 0 empty_db).2
      = DownOutcome.crash "AttributeError: NoneType object has no attribute custom_sound_down" := by
  rfl

/-- C9: a DOWN event whose `domain_id` matches no `Domain` row is still an
implicit UP-to-DOWN transition: the handler appends a new unresolved
`DowntimeLog` row keyed to that identity with `start_time` equal to the
event's `detected_at` (and commits it before the notification block runs). -/
theorem C9_unknown_domain_still_logs (deliver : Device → DeliveryOutcome)
    (domain_id detected_at : Int) (db : DB)
    (h : db.domains.find? (fun d => d.id == domain_id) = none) :
    (domain_down deliver domain_id detected_at db).1.logs
      = db.logs ++ [⟨db.next_log_id, domain_id, detected_at, none, none, false⟩] := by
  simp only [domain_down, h, if_true]

theorem C9_unknown_domain_still_logs_witness :
    (domain_down (fun _ => DeliveryOutcome.sent "mid") 7 1234 ⟨[], [], [], 5⟩).1.logs
      = [⟨5, 7, 1234, none, none, false⟩] := by
  have h := C9_unknown_domain_still_logs (fun _ => DeliveryOutcome.sent "mid") 7 1234
    ⟨[], [], [], 5⟩ rfl
  simpa using h

/-- Record store with one DOWN domain and one open incident that started at
time 10, for exercising the clock-skew path of `domain_up`. -/
def skew_db : DB :=
  ⟨[⟨1, "example.com", none, none, none, false⟩],
   [⟨1, 1, 10, none, none, false⟩], [], 2⟩

/-- C4 counterexample: an UP event at time 5 closing an incident that
started at time 10 stores `duration_seconds = -5`: the handler computes
`int((end_time - start_time).total_seconds())` with no clamping, so the
stored duration is negative, not 0. -/
theorem C4_counterexample_negative_duration :
    ((domain_up (fun _ => DeliveryOutcome.sent "mid") 1 5 skew_db).1.logs.map
        (fun l => l.duration_seconds)) = [some (-5)]
    ∧ ¬ ((-5 : Int) = 0 ∨ 0 ≤ (-5 : Int)) := by
  exact ⟨by decide, by decide⟩

/-- C4 as amended: whenever an UP event finds an open incident record, the
record is closed with `end_time = detected_at` and stored
`duration_seconds = detected_at − start_time` in whole seconds exactly — with
no clamping, so the stored value is negative whenever `detected_at` precedes
the recorded start. -/
theorem C4_amended_duration_no_clamp (deliver : Device → DeliveryOutcome)
    (domain_id detected_at : Int) (db : DB) (log : LogRec)
    (h : db.logs.find? (fun l => l.domain_id == domain_id && !l.resolved) = some log) :
    (domain_up deliver domain_id detected_at db).1.logs
      = db.logs.map (fun l =>
          if l.id == log.id then
            { l with end_time := some detected_at,
                     duration_seconds := some (detected_at - l.start_time),
                     resolved := true }
          else l) := by
  simp only [domain_up, h]
  split
  · split <;> rfl
  · rfl

theorem C4_amended_duration_no_clamp_witness :
    (domain_up (fun _ => DeliveryOutcome.sent "mid") 1 160
        ⟨[⟨1, "example.com", none, none, none, false⟩],
         [⟨1, 1, 100, none, none, false⟩], [], 2⟩).1.logs
      = [⟨1, 1, 100, some 160, some 60, true⟩] := by
  have h := C4_amended_duration_no_clamp (fun _ => DeliveryOutcome.sent "mid") 1 160
    ⟨[⟨1, "example.com", none, none, none, false⟩],
     [⟨1, 1, 100, none, none, false⟩], [], 2⟩
    ⟨1, 1, 100, none, none, false⟩ rfl
  exact h.trans (by decide)

/-- Record store with one DOWN domain, one open incident started at time
100 and one registered device, for exercising the recovery-notification path
of `domain_up`. -/
def recovery_db : DB :=
  ⟨[⟨1, "example.com", none, none, none, false⟩],
   [⟨1, 1, 100, none, none, false⟩], [⟨1, "tok", "android"⟩], 2⟩

/-- Projection used to inspect the duration string carried by the up
notification of an `/events/up` outcome, if one was sent. -/
def up_sent_duration_text (o : UpOutcome) : Option String :=
  match o with
  | .ok resp =>
    match resp.sent with
    | some nc => nc.duration_formatted
    | none => none
  | _ => none

/-- C6 counterexample: an UP event closing a 45-second incident while the
domain was DOWN sends its notification with the duration string
`"45 seconds"` (Python renders `f"{duration_seconds} seconds"` below one
minute), not `"45s"` as the claim's sub-minute rule `"Ns"` states. -/
theorem C6_counterexample_seconds_format :
    up_sent_duration_text
        (domain_up (fun _ => DeliveryOutcome.sent "mid") 1 145 recovery_db).2
      = some "45 seconds"
    ∧ "45 seconds" ≠ "45s" := by
  exact ⟨by decide, by decide⟩

/-- C6 as amended: for every UP event that closes an incident of positive
duration D while the domain was DOWN, exactly one up notification fires, on
the dedicated `"uptime_v3"` channel, and its human-readable duration string
is: `"N seconds"` for D < 60, `"Mm Ss"` for 60 ≤ D < 3600 (90 → `"1m 30s"`),
and `"Hh Mm"` for D ≥ 3600 (3661 → `"1h 1m"`). -/
theorem C6_amended_up_notification (deliver : Device → DeliveryOutcome)
    (domain_id detected_at : Int) (db : DB) (dom : DomainRec) (log : LogRec)
    (hdom : db.domains.find? (fun d => d.id == domain_id) = some dom)
    (hwas_down : dom.is_active = false)
    (hlog : db.logs.find? (fun l => l.domain_id == domain_id && !l.resolved) = some log)
    (hpos : 0 < detected_at - log.start_time) :
    ∃ resp, (domain_up deliver domain_id detected_at db).2 = UpOutcome.ok resp ∧
      resp.status_changed = true ∧
      ∃ nc, resp.sent = some nc ∧ nc.channel_id = "uptime_v3" ∧ nc.data_type = "up" ∧
        nc.duration_formatted = some
          (if detected_at - log.start_time < 60 then
             toString (detected_at - log.start_time) ++ " seconds"
           else if detected_at - log.start_time < 3600 then
             toString (Int.ediv (detected_at - log.start_time) 60) ++ "m "
               ++ toString (Int.emod (detected_at - log.start_time) 60) ++ "s"
           else
             toString (Int.ediv (detected_at - log.start_time) 3600) ++ "h "
               ++ toString (Int.ediv (Int.emod (detected_at - log.start_time) 3600) 60) ++ "m") := by
  simp only [domain_up, hlog, hdom, hwas_down, decide_eq_true hpos, Bool.not_false,
    Bool.true_and, if_true]
  exact ⟨_, rfl, rfl, _, rfl, rfl, rfl, rfl⟩

theorem C6_amended_up_notification_witness :
    up_sent_duration_text
        (domain_up (fun _ => DeliveryOutcome.sent "mid") 1 190 recovery_db).2
      = some "1m 30s"
    ∧ up_sent_duration_text
        (domain_up (fun _ => DeliveryOutcome.sent "mid") 1 3761 recovery_db).2
      = some "1h 1m" := by
  constructor
  · obtain ⟨resp, hresp, hsc, nc, hnc, hch, hty, hfmt⟩ :=
      C6_amended_up_notification (fun _ => DeliveryOutcome.sent "mid") 1 190 recovery_db
        ⟨1, "example.com", none, none, none, false⟩ ⟨1, 1, 100, none, none, false⟩
        rfl rfl rfl (by decide)
    simp only [hresp, up_sent_duration_text, hnc, hfmt]
    decide
  · obtain ⟨resp, hresp, hsc, nc, hnc, hch, hty, hfmt⟩ :=
      C6_amended_up_notification (fun _ => DeliveryOutcome.sent "mid") 1 3761 recovery_db
        ⟨1, "example.com", none, none, none, false⟩ ⟨1, 1, 100, none, none, false⟩
        rfl rfl rfl (by decide)
    simp only [hresp, up_sent_duration_text, hnc, hfmt]
    decide

/-! ## Analytics aggregation (`app/services/analytics_service.py`,
`get_domain_analytics`)

The function receives the `DowntimeLog` rows the persistence range query
returned for the domain and window (ordered by `start_time` ascending — a
guarantee of the query layer, spec section 6), plus the clock readings the
source takes itself: `today` is `date.today()` as a calendar-day number and
`now` is `datetime.now()` as a timestamp in seconds. -/

/-- Python's `max(xs, default=d)`: `d` only when the list is empty (it is
not a floor for the maximum). -/
def py_max_default (xs : List Int) (d : Int) : Int :=
  match xs with
  | [] => d
  | x :: rest => rest.foldl max x

/-- Python's `int(a / b)` on ints: true division then truncation toward
zero. -/
def py_int_div (a b : Int) : Int := Int.tdiv a b

/-- The `resolved_logs` filter of `get_domain_analytics`:
`l.resolved and l.duration_seconds` — the second conjunct is Python
truthiness, so a null or zero duration is rejected. -/
def resolved_filter (logs : List LogRec) : List LogRec :=
  logs.filter fun l => l.resolved && l.duration_seconds.getD 0 != 0

/-- The gap loop of the MTBF computation: for consecutive entries of
`resolved_logs`, when the previous record has an end time, take
`current.start_time − prev.end_time` and keep it only if positive.
(`start_time` is a non-null datetime, hence always truthy.) -/
def mtbf_gaps : List LogRec → List Int
  | a :: b :: rest =>
    (match a.end_time with
     | some e => if 0 < b.start_time - e then [b.start_time - e] else []
     | none => []) ++ mtbf_gaps (b :: rest)
  | _ => []

/-- One row of the `daily_stats` time series.  `bucket_start` is the start
of the slice as a timestamp (hour start for the 24-hour view, midnight of
the day for the daily views); the formatted date/time label and the
float-rounded uptime/downtime minutes of the source are display-only and
omitted. -/
structure AnalyticsBucket where
  bucket_start : Int
  incidents : Nat
  total_downtime : Int
deriving DecidableEq, Inhabited

/-- The per-log overlap computation of the hourly loop: logs overlapping
`[hour_start, hour_start+3600)` (an open log uses `now` as its end), paired
with the overlap length in seconds. -/
def hour_overlap_entries (logs : List LogRec) (now hour_start : Int) :
    List (LogRec × Int) :=
  logs.filterMap fun l =>
    let log_start := l.start_time
    let log_end := l.end_time.getD now
    if log_start < hour_start + 3600 && hour_start < log_end then
      some (l, min log_end (hour_start + 3600) - max log_start hour_start)
    else none

/-- One hourly bucket of the 24-hour view: distinct overlapping log ids and
summed overlap seconds. -/
def hour_bucket (logs : List LogRec) (now hour_start : Int) : AnalyticsBucket :=
  { bucket_start := hour_start,
    incidents := ((hour_overlap_entries logs now hour_start).map fun p => p.1.id).dedup.length,
    total_downtime := ((hour_overlap_entries logs now hour_start).map fun p => p.2).sum }

/-- One daily bucket of the 7-day and 30-day views: logs whose `start_time` falls
on calendar day `day`, counted whole (durations are not split across days in
the daily views). -/
def day_bucket (logs : List LogRec) (day : Int) : AnalyticsBucket :=
  let day_logs := logs.filter fun l => Int.ediv l.start_time 86400 == day
  { bucket_start := day * 86400,
    incidents := day_logs.length,
    total_downtime := (day_logs.map fun l => l.duration_seconds.getD 0).sum }

/-- The aggregate report of `get_domain_analytics` (the echoed `domain_id`,
the raw `logs` echo and the float `uptime_percentage` are omitted). -/
structure AnalyticsResult where
  total_incidents : Nat
  total_downtime : Int
  mttr : Int
  mtbf : Int
  worst_duration : Int
  daily_stats : List AnalyticsBucket
deriving DecidableEq

/-- Embedding of `get_domain_analytics(db, domain_id, days)` from
`app/services/analytics_service.py`, applied to the fetched log rows.
`total_downtime` coerces null durations to 0 (`l.duration_seconds or 0`);
`mtbf` averages positive gaps between consecutive `resolved_logs` entries
when at least two exist, with a fixed 7-day-window fallback, and the
single-record branch tests `total_incidents == 1` (the count of all fetched
logs); the time series is 24 hourly buckets ending at the current hour when
`days == 1`, else `days` daily buckets. -/
def get_domain_analytics (logs : List LogRec) (today now : Int) (days : Nat) :
    AnalyticsResult :=
  let total_incidents := logs.length
  let total_downtime := (logs.map fun l => l.duration_seconds.getD 0).sum
  let worst_duration := py_max_default (logs.map fun l => l.duration_seconds.getD 0) 0
  let resolved_logs := resolved_filter logs
  let mttr :=
    if resolved_logs.length = 0 then 0
    else py_int_div ((resolved_logs.map fun l => l.duration_seconds.getD 0).sum)
           resolved_logs.length
  let mtbf :=
    if 2 ≤ resolved_logs.length then
      let time_between_failures := mtbf_gaps resolved_logs
      if time_between_failures.length ≠ 0 then
        py_int_div time_between_failures.sum time_between_failures.length
      else if 1 < total_incidents then
        py_int_div ((7 * 24 * 60 * 60 : Int) - total_downtime) ((total_incidents : Int) - 1)
      else 0
    else if total_incidents = 1 then (7 * 24 * 60 * 60 : Int) - total_downtime
    else 0
  let daily_stats :=
    if days = 1 then
      (List.range 24).map fun i =>
        hour_bucket logs now ((now - Int.emod now 3600) - ((23 - i : Nat) : Int) * 3600)
    else
      (List.range days).map fun i =>
        day_bucket logs ((today - ((days : Int) - 1)) + (i : Nat))
  { total_incidents := total_incidents,
    total_downtime := total_downtime,
    mttr := mttr,
    mtbf := mtbf,
    worst_duration := worst_duration,
    daily_stats := daily_stats }

/-- The `totalDowntime` aggregate as claim C2 words it: every record
contributes its duration, with an open-ended (end-time-null) record
contributing a provisional duration computed with `now` as its end.  This
definition follows the claim's words, for comparison against the source
computation. -/
def claimed_total_downtime (now : Int) (logs : List LogRec) : Int :=
  (logs.map fun l =>
    match l.end_time with
    | none => now - l.start_time
    | some _ => l.duration_seconds.getD 0).sum

/-- C2 counterexample: a fetched set holding one unresolved record (start
100, no end) evaluated at `now = 1000`.  The claim's formula yields 900, but
the code's `sum((l.duration_seconds or 0) ...)` coerces the record's null
duration to 0, so `totalDowntime = 0`. -/
theorem C2_counterexample_open_record :
    (get_domain_analytics [⟨1, 1, 100, none, none, false⟩] 0 1000 7).total_downtime
      ≠ claimed_total_downtime 1000 [⟨1, 1, 100, none, none, false⟩] := by
  decide

theorem sum_getD_eq_sum_filterMap (logs : List LogRec) :
    (logs.map fun l => l.duration_seconds.getD 0).sum
      = (logs.filterMap fun l => l.duration_seconds).sum := by
  induction logs with
  | nil => rfl
  | cons l rest ih =>
    cases hd : l.duration_seconds <;> simp [List.filterMap_cons, hd, ih]

/-- C2 as amended: `totalDowntime` equals the sum of the stored
`duration_seconds` values of the fetched records; records with a null
duration — in particular every open-ended (unresolved, end-time-null)
record — contribute 0, and `now` plays no role in this aggregate (a
now-provisional end is used only by the hourly bucket overlap). -/
theorem C2_amended_total_downtime (logs : List LogRec) (today now : Int) (days : Nat) :
    (get_domain_analytics logs today now days).total_downtime
      = (logs.filterMap fun l => l.duration_seconds).sum := by
  show (logs.map fun l => l.duration_seconds.getD 0).sum = _
  exact sum_getD_eq_sum_filterMap logs

/-- C3 counterexample: with one resolved record (3600 s) accompanied by one
unresolved record, the code takes neither mtbf branch
(`len(resolved_logs) >= 2` fails and `total_incidents == 1` fails since the
count of all fetched logs is 2), so `mtbf = 0`, not
`7·86400 − totalDowntime`; and with zero resolved records but exactly one
fetched (unresolved) log, `total_incidents == 1` fires and `mtbf = 604800`,
not 0. -/
theorem C3_counterexample_resolved_count :
    (get_domain_analytics
        [⟨1, 1, 0, some 3600, some 3600, true⟩, ⟨2, 1, 10000, none, none, false⟩]
        0 100000 7).mtbf
      ≠ (7 * 24 * 60 * 60 : Int) - (get_domain_analytics
        [⟨1, 1, 0, some 3600, some 3600, true⟩, ⟨2, 1, 10000, none, none, false⟩]
        0 100000 7).total_downtime
    ∧ (get_domain_analytics [⟨1, 1, 100, none, none, false⟩] 0 1000 7).mtbf ≠ 0 := by
  exact ⟨by decide, by decide⟩

/-- C3 as amended: the single-incident mtbf branch tests the count of all
fetched records, not the resolved count.  Whenever fewer than two records
pass the resolved filter, `mtbf = 7·86400 − totalDowntime` (fixed 7-day
window) exactly when exactly one record was fetched — resolved or not — and
0 otherwise.  In particular a log set holding a single resolved incident of
3600 s downtime yields `mtbf = 7·86400 − 3600`. -/
theorem C3_amended_mtbf_single (logs : List LogRec) (today now : Int) (days : Nat)
    (h : (resolved_filter logs).length < 2) :
    (get_domain_analytics logs today now days).mtbf =
      if logs.length = 1 then
        (7 * 24 * 60 * 60 : Int) - (get_domain_analytics logs today now days).total_downtime
      else 0 := by
  have hn : ¬ 2 ≤ (resolved_filter logs).length := by omega
  simp only [get_domain_analytics]
  rw [if_neg hn]

theorem C3_amended_mtbf_single_witness :
    (get_domain_analytics [⟨1, 1, 0, some 3600, some 3600, true⟩] 0 100000 7).mtbf
      = 7 * 86400 - 3600 := by
  have h := C3_amended_mtbf_single [⟨1, 1, 0, some 3600, some 3600, true⟩] 0 100000 7
    (by decide)
  rw [h]
  decide

theorem hour_downtime_overlap_sum (logs : List LogRec) (now hs : Int)
    (hwf : ∀ l ∈ logs, l.start_time ≤ l.end_time.getD now) :
    ((hour_overlap_entries logs now hs).map fun p => p.2).sum
      = (logs.map fun l =>
          max 0 (min (l.end_time.getD now) (hs + 3600) - max l.start_time hs)).sum := by
  induction logs with
  | nil => rfl
  | cons l rest ih =>
    have hl := hwf l (List.mem_cons_self l rest)
    have hrest := ih (fun x hx => hwf x (List.mem_cons_of_mem l hx))
    rcases Classical.em (l.start_time < hs + 3600 ∧ hs < l.end_time.getD now) with hc | hc
    · have hb : (decide (l.start_time < hs + 3600) && decide (hs < l.end_time.getD now)) = true := by
        simp [hc.1, hc.2]
      simp only [hour_overlap_entries, List.filterMap_cons, hb, if_true, List.map_cons,
        List.sum_cons] at hrest ⊢
      rw [hrest]
      omega
    · have hb : (decide (l.start_time < hs + 3600) && decide (hs < l.end_time.getD now)) = false := by
        rcases Classical.em (l.start_time < hs + 3600) with h1 | h1
        · have h2 : ¬ hs < l.end_time.getD now := fun h2 => hc ⟨h1, h2⟩
          simp [h2]
        · simp [h1]
      have hval : max 0 (min (l.end_time.getD now) (hs + 3600) - max l.start_time hs) = 0 := by
        rcases Classical.em (l.start_time < hs + 3600) with h1 | h1
        · have h2 : ¬ hs < l.end_time.getD now := fun h2 => hc ⟨h1, h2⟩
          omega
        · omega
      simp only [hour_overlap_entries, List.filterMap_cons, hb, Bool.false_eq_true, if_false,
        List.map_cons, List.sum_cons] at hrest ⊢
      rw [hrest, hval]
      omega

/-- C7: with `windowDays = 1`, `get_domain_analytics` produces exactly 24
hourly buckets ending at the current hour (bucket `i` starts at the current
hour start minus `23 − i` hours), and — for well-formed records, whose start
does not exceed their end-or-now — each bucket's downtime equals the sum
over all fetched records of the interval-overlap seconds between the
record's span `[start, end-or-now]` and the bucket's
`[bucket_start, bucket_start + 3600)`. -/
theorem C7_hourly_buckets (logs : List LogRec) (today now : Int)
    (hwf : ∀ l ∈ logs, l.start_time ≤ l.end_time.getD now) :
    (get_domain_analytics logs today now 1).daily_stats.length = 24 ∧
    (∀ i : Nat, i < 24 →
      ((get_domain_analytics logs today now 1).daily_stats.getD i default).bucket_start
        = (now - Int.emod now 3600) - ((23 - i : Nat) : Int) * 3600) ∧
    (∀ b ∈ (get_domain_analytics logs today now 1).daily_stats,
      b.total_downtime = (logs.map fun l =>
          max 0 (min (l.end_time.getD now) (b.bucket_start + 3600)
                 - max l.start_time b.bucket_start)).sum) := by
  have hds : (get_domain_analytics logs today now 1).daily_stats
      = (List.range 24).map (fun i =>
          hour_bucket logs now ((now - Int.emod now 3600) - ((23 - i : Nat) : Int) * 3600)) := rfl
  refine ⟨?_, ?_, ?_⟩
  · rw [hds]
    simp
  · intro i hi
    rw [hds, List.getD_eq_getElem?_getD, List.getElem?_map, List.getElem?_range hi]
    rfl
  · intro b hb
    rw [hds] at hb
    obtain ⟨i, hi_mem, rfl⟩ := List.mem_map.mp hb
    exact hour_downtime_overlap_sum logs now _ hwf

/-- The incident of the spec's hourly-bucketing example: spans 23:45 of day
1 to 00:15 of day 2 (timestamps 171900 to 173700), duration 1800 s. -/
def c7_log : LogRec := ⟨1, 1, 171900, some 173700, some 1800, true⟩

theorem C7_hourly_buckets_witness :
    ((get_domain_analytics [c7_log] 0 195000 1).daily_stats.getD 16 default).total_downtime = 900
    ∧ ((get_domain_analytics [c7_log] 0 195000 1).daily_stats.getD 17 default).total_downtime
        = 900 := by
  have h := C7_hourly_buckets [c7_log] 0 195000 (by decide)
  have h16 : (get_domain_analytics [c7_log] 0 195000 1).daily_stats.getD 16 default
      ∈ (get_domain_analytics [c7_log] 0 195000 1).daily_stats := by decide
  have h17 : (get_domain_analytics [c7_log] 0 195000 1).daily_stats.getD 17 default
      ∈ (get_domain_analytics [c7_log] 0 195000 1).daily_stats := by decide
  refine ⟨?_, ?_⟩
  · rw [h.2.2 _ h16]
    decide
  · rw [h.2.2 _ h17]
    decide
